import Mathlib

/-!
Shallow embedding of the credit-ledger and generation-accounting core of the
Productorrr repository (Cloudflare worker in src/src/worker/index.ts, helper
table in src/src/react-app/components/ImageGenerator.tsx, Stripe helper class
in src/src/react-app/components/ImageGenerator.tsx.ts).

Money is modelled as Int (rupees); all amounts occurring in the verified
scenarios are integers, for which JavaScript number arithmetic and Int
arithmetic agree. SQL rows become Lean structures, and the database state for
one user (every handler only reads and writes the rows of a single user id)
becomes the UserState structure. Each SQL statement of a handler becomes an
atomic state transformer, so that partial execution and interleavings of the
statement sequences can be examined.
-/

namespace Productorrr

/-- One row of the wallet_transactions table, as written by the handlers in
src/src/worker/index.ts (columns user_id is implicit in the single-user
state). -/
structure TxRow where
  txType : String
  amount : Int
  creditsAdded : Int
  balanceAfter : Int
  paymentGatewayId : Option String
  description : String
  deriving Repr, DecidableEq

/-- One row of the credit_usage table (index.ts lines 242-254). -/
structure CreditUsageRow where
  generationId : String
  creditsConsumed : Int
  generationType : String
  resolution : String
  prompt : String
  imageUrl : String
  costInRupees : Int
  deriving Repr, DecidableEq

/-- One row of the generated_images table (index.ts lines 256-269). The
enhanced prompt column is the output of enhanceProductPrompt (lines 466-491),
a pure string template not involved in any ledger property; it is kept
abstract as the original prompt here. -/
structure GeneratedImageRow where
  id : String
  originalPrompt : String
  resolution : String
  generationType : String
  creditsUsed : Int
  imageUrl : String
  deriving Repr, DecidableEq

/-- The database state restricted to one user: the wallet_balance column of
the users row, and that user's wallet_transactions, credit_usage and
generated_images rows in creation order. -/
structure UserState where
  walletBalance : Int
  txs : List TxRow
  creditUsage : List CreditUsageRow
  generatedImages : List GeneratedImageRow
  deriving Repr, DecidableEq

/-- A user as created on first login (index.ts lines 120-131): wallet_balance
is 0 and no dependent rows exist. -/
def initialUser : UserState :=
  { walletBalance := 0, txs := [], creditUsage := [], generatedImages := [] }

/-- Modelled from the spec: calculateCreditCost is imported from
"@/shared/types" in index.ts line 13, and that module is not part of the
repository snapshot. Spec section 4.1 gives its contract: a pure function of
the resolution tier only (the image count does not change the price), with the
fixed weight table 1024x1024 to 1, 1920x1080 and 1080x1920 to 2, 2560x1440 to
3, 3840x2160 to 5, always at least 1. The table agrees with the credits field
of the RESOLUTIONS display table in ImageGenerator.tsx lines 45-51. -/
def calculateCreditCost (resolution : String) (_imageCount : Nat) : Int :=
  if resolution = "1024x1024" then 1
  else if resolution = "1920x1080" then 2
  else if resolution = "1080x1920" then 2
  else if resolution = "2560x1440" then 3
  else if resolution = "3840x2160" then 5
  else 1

/-- Monetary cost of a generation: index.ts line 199,
rupeesCost = creditCost * 25. -/
def rupeesCost (resolution : String) (imageCount : Nat) : Int :=
  calculateCreditCost resolution imageCount * 25

/-- StripeService.calculateBonusCredits,
src/src/react-app/components/ImageGenerator.tsx.ts lines 366-371. -/
def calculateBonusCredits (amount : Int) : Int :=
  if amount ≥ 5000 then 50
  else if amount ≥ 2500 then 15
  else if amount ≥ 1000 then 5
  else 0

/-- Splits a character list at every occurrence of the separator, mirroring
the JavaScript String.prototype.split call with a one-character separator. -/
def splitChar (c : Char) : List Char → List (List Char)
  | [] => [[]]
  | a :: as =>
    match splitChar c as with
    | [] => [[a]]
    | r :: rs => if a = c then [] :: r :: rs else (a :: r) :: rs

/-- The placeholder URL built in the catch branch of generateImageWithGoogle
(index.ts lines 558-559): the resolution string is split on the letter x and
the two parts become path segments of a picsum.photos URL. The time-based
random query suffix is omitted (it does not affect any verified property). -/
def picsumUrl (resolution : String) : String :=
  let parts := (splitChar 'x' resolution.data).map String.mk
  "https://picsum.photos/" ++ parts.headD "" ++ "/" ++ (parts.drop 1).headD ""

/-- generateImageWithGoogle, index.ts lines 494-561. The whole body sits in a
try block; any failure of the provider call chain (token fetch, Imagen API
error response, R2 storage) is caught at lines 555-560 and the function
returns the picsum placeholder URL instead of propagating an error. The
function therefore never fails; the outcome of the external call chain is
abstracted as the providerOk flag, and the R2 public URL of a successful
generation is abstracted as a fixed string (its exact value plays no role in
the ledger logic). -/
def generateImageWithGoogle (providerOk : Bool) (resolution : String) : String :=
  if providerOk then "https://r2-domain/generated/image.png"
  else picsumUrl resolution

/-- True when the first list is an initial segment of the second. -/
def charsLead : List Char → List Char → Bool
  | [], _ => true
  | _ :: _, [] => false
  | p :: ps, c :: cs => p = c && charsLead ps cs

/-- True when the first list occurs as a contiguous segment of the second. -/
def charsHave (pat : List Char) : List Char → Bool
  | [] => charsLead pat []
  | c :: cs => charsLead pat (c :: cs) || charsHave pat cs

/-- True when the pattern occurs as a substring, mirroring the JavaScript
String.prototype.includes call in verifyStripeSignature. -/
def stringIncludes (s pat : String) : Bool :=
  charsHave pat.data s.data

/-- verifyStripeSignature, index.ts lines 624-628: the payload argument is
ignored by the source; the check is that the signature header contains the
substring v1= and the secret is nonempty. -/
def verifyStripeSignature (signature secret : String) : Bool :=
  stringIncludes signature "v1=" && decide (0 < secret.length)

/-- One atomic SQL statement of the handlers, acting on the single-user
state. The UPDATE on users (index.ts lines 226-228 and 387-389) writes an
absolute wallet_balance value computed by the handler from its earlier read;
the INSERT statements append one row to the respective table. -/
inductive DbStmt where
  | updateBalance (newBalance : Int)
  | insertTx (row : TxRow)
  | insertUsage (row : CreditUsageRow)
  | insertImage (row : GeneratedImageRow)
  deriving Repr, DecidableEq

/-- Effect of one SQL statement on the state. -/
def applyStmt (st : UserState) : DbStmt → UserState
  | .updateBalance b => { st with walletBalance := b }
  | .insertTx r => { st with txs := st.txs ++ [r] }
  | .insertUsage r => { st with creditUsage := st.creditUsage ++ [r] }
  | .insertImage r => { st with generatedImages := st.generatedImages ++ [r] }

/-- Sequential execution of a list of SQL statements. -/
def applyStmts (st : UserState) (l : List DbStmt) : UserState :=
  l.foldl applyStmt st

/-- The four statements the POST /api/generate handler issues after a
successful provider call (index.ts lines 220-269), in source order: UPDATE
wallet_balance to currentBalance - rupeesCost, INSERT the deduct row into
wallet_transactions (credits_added 0, balance_after newBalance, no gateway
id), INSERT into credit_usage, INSERT into generated_images. currentBalance
is the value the handler read at lines 202-206 before calling the provider. -/
def generateCommitStmts (currentBalance : Int) (resolution : String)
    (generationType prompt : String) (numImages : Nat) (providerOk : Bool)
    (generationId : String) : List DbStmt :=
  let creditCost := calculateCreditCost resolution numImages
  let rupees := creditCost * 25
  let imageUrl := generateImageWithGoogle providerOk resolution
  let newBalance := currentBalance - rupees
  [ .updateBalance newBalance,
    .insertTx
      { txType := "deduct", amount := rupees, creditsAdded := 0,
        balanceAfter := newBalance, paymentGatewayId := none,
        description := "Image generation - " ++ resolution ++ " - "
          ++ toString creditCost ++ " credits" },
    .insertUsage
      { generationId := generationId, creditsConsumed := creditCost,
        generationType := generationType, resolution := resolution,
        prompt := prompt, imageUrl := imageUrl, costInRupees := rupees },
    .insertImage
      { id := generationId, originalPrompt := prompt, resolution := resolution,
        generationType := generationType, creditsUsed := creditCost,
        imageUrl := imageUrl } ]

/-- Outcome of the POST /api/generate handler as seen by the caller. -/
inductive GenerateResult where
  | badRequest
  | insufficient (required current : Int)
  | success (imageUrl : String) (creditsUsed : Int) (newBalance : Int)
  deriving Repr, DecidableEq

/-- The part of the POST /api/generate handler that runs after the balance
read, as a function of the read value (index.ts lines 192-277): reject an
empty image list (line 193), compute the cost (lines 198-199), reject when
the READ balance is below the cost (line 208, reporting required and current),
otherwise call the provider wrapper (which never fails, see
generateImageWithGoogle) and issue the four commit statements. Splitting at
the read point lets interleavings of two concurrent requests be expressed. -/
def generateFromRead (readBalance : Int) (st : UserState) (resolution : String)
    (generationType prompt : String) (numImages : Nat) (providerOk : Bool)
    (generationId : String) : GenerateResult × UserState :=
  if numImages = 0 then (.badRequest, st)
  else
    let creditCost := calculateCreditCost resolution numImages
    let rupees := creditCost * 25
    if readBalance < rupees then (.insufficient rupees readBalance, st)
    else
      let imageUrl := generateImageWithGoogle providerOk resolution
      (.success imageUrl creditCost (readBalance - rupees),
        applyStmts st
          (generateCommitStmts readBalance resolution generationType prompt
            numImages providerOk generationId))

/-- The POST /api/generate handler (index.ts lines 183-285) run in isolation:
the balance read at lines 202-206 sees the current state. -/
def postGenerate (st : UserState) (resolution generationType prompt : String)
    (numImages : Nat) (providerOk : Bool) (generationId : String) :
    GenerateResult × UserState :=
  generateFromRead st.walletBalance st resolution generationType prompt
    numImages providerOk generationId

/-- Two concurrent POST /api/generate requests for the same user under the
schedule in which both balance reads (index.ts lines 202-206) execute before
either commit sequence (lines 226-269): request one reads, request two reads
the same value, request one checks and commits, then request two checks
against its now-stale read and commits. Every database statement itself is
atomic; only the statement interleaving is chosen. -/
def runTwoGenerates (st : UserState)
    (res1 gt1 p1 : String) (n1 : Nat) (ok1 : Bool) (g1 : String)
    (res2 gt2 p2 : String) (n2 : Nat) (ok2 : Bool) (g2 : String) :
    GenerateResult × GenerateResult × UserState :=
  let read1 := st.walletBalance
  let read2 := st.walletBalance
  let out1 := generateFromRead read1 st res1 gt1 p1 n1 ok1 g1
  let out2 := generateFromRead read2 out1.2 res2 gt2 p2 n2 ok2 g2
  (out1.1, out2.1, out2.2)

/-- A checkout.session.completed payload as the webhook handler reads it
(index.ts lines 371-377): the event type, the session id (used as the
payment_gateway_id of the ledger row) and amount_total in paise. The
metadata user_id is implicit in the single-user state. -/
structure StripeEvent where
  eventType : String
  sessionId : String
  amountTotal : Int
  deriving Repr, DecidableEq

/-- Outcome of the POST /api/webhook/stripe handler. -/
inductive WebhookResult where
  | noSignatureHeader
  | invalidSignature
  | received
  deriving Repr, DecidableEq

/-- The POST /api/webhook/stripe handler (index.ts lines 356-410): reject a
missing signature header (lines 358-361), reject an invalid signature (lines
366-369, via verifyStripeSignature), then, only for events of type
checkout.session.completed (line 373), convert amount_total from paise (line
376), compute credits as the floor of amount over 25 (line 377), read the
current balance (lines 380-384), UPDATE it to currentBalance + amount (lines
387-389) and INSERT one topup row carrying the session id as
payment_gateway_id (lines 392-402). Any other event type falls through to the
received response (line 405) without touching the database. The handler
performs no duplicate-delivery check of any kind. -/
def stripeWebhook (st : UserState) (sigHeader : Option String) (secret : String)
    (ev : StripeEvent) : WebhookResult × UserState :=
  match sigHeader with
  | none => (.noSignatureHeader, st)
  | some sig =>
    if verifyStripeSignature sig secret = false then (.invalidSignature, st)
    else if ev.eventType = "checkout.session.completed" then
      let amount := ev.amountTotal / 100
      let credits := amount / 25
      let currentBalance := st.walletBalance
      let newBalance := currentBalance + amount
      (.received,
        applyStmts st
          [ .updateBalance newBalance,
            .insertTx
              { txType := "topup", amount := amount, creditsAdded := credits,
                balanceAfter := newBalance, paymentGatewayId := some ev.sessionId,
                description := "Payment completed - " ++ toString credits
                  ++ " credits added" } ])
    else (.received, st)

/-- One ledger-affecting request, for stating whole-history invariants: a
webhook delivery or a generation request. -/
inductive LedgerOp where
  | webhook (sigHeader : Option String) (secret : String) (ev : StripeEvent)
  | generate (resolution generationType prompt : String) (numImages : Nat)
      (providerOk : Bool) (generationId : String)

/-- State transition of one request run in isolation. -/
def applyOp (st : UserState) : LedgerOp → UserState
  | .webhook sig secret ev => (stripeWebhook st sig secret ev).2
  | .generate r g p n ok gid => (postGenerate st r g p n ok gid).2

/-- Sequential execution of a list of requests. -/
def applyOps (st : UserState) (ops : List LedgerOp) : UserState :=
  ops.foldl applyOp st

/-- Signed amount of a ledger row: deduct rows count negative, topup and
bonus rows positive (spec section 3). -/
def signedAmount (r : TxRow) : Int :=
  if r.txType = "deduct" then -r.amount else r.amount

/-- Sum of signed amounts over a ledger, in creation order. -/
def ledgerSum (l : List TxRow) : Int :=
  (l.map signedAmount).sum

/-- Default row used with List.getD when indexing a ledger. -/
def defaultTxRow : TxRow :=
  { txType := "", amount := 0, creditsAdded := 0, balanceAfter := 0,
    paymentGatewayId := none, description := "" }

section Sanity

example : calculateCreditCost "1920x1080" 3 = 2 := by decide
example : rupeesCost "3840x2160" 1 = 125 := by decide
example : calculateBonusCredits 2500 = 15 := by decide
example : picsumUrl "1024x1024" = "https://picsum.photos/1024/1024" := by decide
example : verifyStripeSignature "t=1,v1=abc" "whsec_x" = true := by decide
example : verifyStripeSignature "t=1,v2=abc" "whsec_x" = false := by decide
example : verifyStripeSignature "t=1,v1=abc" "" = false := by decide

example :
    (postGenerate { initialUser with walletBalance := 100 } "1920x1080"
        "lifestyle" "p" 1 true "img_1").1
      = .success "https://r2-domain/generated/image.png" 2 50 := by decide

example :
    (stripeWebhook initialUser (some "t=1,v1=a") "whsec"
        { eventType := "checkout.session.completed", sessionId := "cs_1",
          amountTotal := 100000 }).2.walletBalance = 1000 := by decide

end Sanity

/-! Theorems about the embedded handlers. -/

/-- C8: the credit cost calculator is a pure deterministic function of the
resolution tier alone, at least 1, with the table 1024x1024 to 1, 1920x1080
and 1080x1920 to 2, 2560x1440 to 3, 3840x2160 to 5, and the monetary cost is
the credit cost times 25 rupees. -/
theorem calculateCreditCost_table (n : Nat) (_hn : 1 ≤ n) :
    calculateCreditCost "1024x1024" n = 1 ∧
    calculateCreditCost "1920x1080" n = 2 ∧
    calculateCreditCost "1080x1920" n = 2 ∧
    calculateCreditCost "2560x1440" n = 3 ∧
    calculateCreditCost "3840x2160" n = 5 ∧
    (∀ resolution m, 1 ≤ m →
      calculateCreditCost resolution n = calculateCreditCost resolution m) ∧
    (∀ resolution, 1 ≤ calculateCreditCost resolution n) ∧
    (∀ resolution, rupeesCost resolution n = calculateCreditCost resolution n * 25) := by
  refine ⟨rfl, rfl, rfl, rfl, rfl, fun r m _ => rfl, fun r => ?_, fun r => rfl⟩
  unfold calculateCreditCost
  split_ifs <;> omega

/-- Witness for C8 at image counts 3 and 7. -/
theorem calculateCreditCost_table_witness :
    calculateCreditCost "1024x1024" 3 = 1 ∧
    calculateCreditCost "3840x2160" 3 = 5 ∧
    calculateCreditCost "1920x1080" 3 = calculateCreditCost "1920x1080" 7 ∧
    rupeesCost "2560x1440" 3 = calculateCreditCost "2560x1440" 3 * 25 :=
  ⟨(calculateCreditCost_table 3 (by decide)).1,
   (calculateCreditCost_table 3 (by decide)).2.2.2.2.1,
   (calculateCreditCost_table 3 (by decide)).2.2.2.2.2.1 "1920x1080" 7 (by decide),
   (calculateCreditCost_table 3 (by decide)).2.2.2.2.2.2.2 "2560x1440"⟩

/-- C9: the bonus-tier schedule is a pure function of the payment amount:
at least 5000 yields 50, otherwise at least 2500 yields 15, otherwise at
least 1000 yields 5, otherwise 0. -/
theorem calculateBonusCredits_tiers (a : Int) :
    (5000 ≤ a → calculateBonusCredits a = 50) ∧
    (a < 5000 → 2500 ≤ a → calculateBonusCredits a = 15) ∧
    (a < 2500 → 1000 ≤ a → calculateBonusCredits a = 5) ∧
    (a < 1000 → calculateBonusCredits a = 0) := by
  unfold calculateBonusCredits
  refine ⟨?_, ?_, ?_, ?_⟩ <;> intros <;> split_ifs <;> omega

/-- Witness for C9 at payment amounts 6000, 2600, 1200 and 999. -/
theorem calculateBonusCredits_tiers_witness :
    calculateBonusCredits 6000 = 50 ∧ calculateBonusCredits 2600 = 15 ∧
    calculateBonusCredits 1200 = 5 ∧ calculateBonusCredits 999 = 0 :=
  ⟨(calculateBonusCredits_tiers 6000).1 (by decide),
   (calculateBonusCredits_tiers 2600).2.1 (by decide) (by decide),
   (calculateBonusCredits_tiers 1200).2.2.1 (by decide) (by decide),
   (calculateBonusCredits_tiers 999).2.2.2 (by decide)⟩

/-- C10: a validly-signed webhook delivery whose event type is not
checkout.session.completed returns the received response and leaves the
entire user state unchanged. -/
theorem webhook_other_event_type_noop (st : UserState) (sig secret : String)
    (ev : StripeEvent) (hsig : verifyStripeSignature sig secret = true)
    (hty : ev.eventType ≠ "checkout.session.completed") :
    stripeWebhook st (some sig) secret ev = (WebhookResult.received, st) := by
  simp [stripeWebhook, hsig, hty]

/-- Witness for C10: a payment_intent.succeeded event with a valid signature
is absorbed without any state change. -/
theorem webhook_other_event_type_noop_witness :
    stripeWebhook initialUser (some "t=1,v1=abc") "whsec"
        { eventType := "payment_intent.succeeded", sessionId := "cs_x",
          amountTotal := 5000 }
      = (WebhookResult.received, initialUser) :=
  webhook_other_event_type_noop initialUser "t=1,v1=abc" "whsec"
    { eventType := "payment_intent.succeeded", sessionId := "cs_x",
      amountTotal := 5000 } (by decide) (by decide)

/-- C3: whenever the monetary cost of a generation request strictly exceeds
the current wallet balance, the handler answers with the insufficient-balance
error carrying the required and current amounts, and the state, in
particular the balance and the ledger, is returned unchanged. -/
theorem generate_insufficient_balance_no_mutation (st : UserState)
    (resolution generationType prompt : String) (n : Nat) (ok : Bool)
    (gid : String) (hn : n ≠ 0)
    (h : st.walletBalance < rupeesCost resolution n) :
    postGenerate st resolution generationType prompt n ok gid
      = (GenerateResult.insufficient (rupeesCost resolution n) st.walletBalance, st) := by
  unfold rupeesCost at h
  simp [postGenerate, generateFromRead, hn, h, rupeesCost]

/-- Witness for C3: balance 10, one image at resolution 1024x1024, cost 25. -/
theorem generate_insufficient_balance_no_mutation_witness :
    postGenerate { initialUser with walletBalance := 10 } "1024x1024" "studio"
        "p" 1 true "img_w"
      = (GenerateResult.insufficient 25 10,
         { initialUser with walletBalance := 10 }) :=
  generate_insufficient_balance_no_mutation
    { initialUser with walletBalance := 10 } "1024x1024" "studio" "p" 1 true
    "img_w" (by decide) (by decide)

/-- C1 fails on the code: the webhook handler has no duplicate-delivery
check, so the same checkout.session.completed event (session id cs_dup,
amount_total 100000 paise, that is 1000 rupees) delivered twice is credited
twice: the second delivery also returns received, the balance ends at 2000
instead of 1000, and two topup rows carrying the same gateway reference
cs_dup exist in the ledger. -/
theorem webhook_duplicate_delivery_credits_twice :
    (stripeWebhook
        (stripeWebhook initialUser (some "t=1,v1=sig") "whsec"
          { eventType := "checkout.session.completed", sessionId := "cs_dup",
            amountTotal := 100000 }).2
        (some "t=1,v1=sig") "whsec"
        { eventType := "checkout.session.completed", sessionId := "cs_dup",
          amountTotal := 100000 }).1 = WebhookResult.received ∧
    (stripeWebhook
        (stripeWebhook initialUser (some "t=1,v1=sig") "whsec"
          { eventType := "checkout.session.completed", sessionId := "cs_dup",
            amountTotal := 100000 }).2
        (some "t=1,v1=sig") "whsec"
        { eventType := "checkout.session.completed", sessionId := "cs_dup",
          amountTotal := 100000 }).2.walletBalance = 2000 ∧
    (stripeWebhook
        (stripeWebhook initialUser (some "t=1,v1=sig") "whsec"
          { eventType := "checkout.session.completed", sessionId := "cs_dup",
            amountTotal := 100000 }).2
        (some "t=1,v1=sig") "whsec"
        { eventType := "checkout.session.completed", sessionId := "cs_dup",
          amountTotal := 100000 }).2.txs.map TxRow.paymentGatewayId
      = [some "cs_dup", some "cs_dup"] := by
  decide

/-- C2 fails on the code: generateImageWithGoogle swallows every provider
failure and returns a placeholder URL, so a generation request whose
provider call fails (balance 100, one image, resolution 1024x1024, cost 25)
still returns success, debits the wallet to 75, and appends a deduct ledger
row, a credit_usage row and a generated_images row. -/
theorem generate_provider_failure_still_debits :
    (postGenerate { initialUser with walletBalance := 100 } "1024x1024"
        "studio" "p" 1 false "img_f").1
      = GenerateResult.success "https://picsum.photos/1024/1024" 1 75 ∧
    (postGenerate { initialUser with walletBalance := 100 } "1024x1024"
        "studio" "p" 1 false "img_f").2.walletBalance = 75 ∧
    ((postGenerate { initialUser with walletBalance := 100 } "1024x1024"
        "studio" "p" 1 false "img_f").2.txs.map TxRow.txType = ["deduct"] ∧
     (postGenerate { initialUser with walletBalance := 100 } "1024x1024"
        "studio" "p" 1 false "img_f").2.creditUsage.length = 1 ∧
     (postGenerate { initialUser with walletBalance := 100 } "1024x1024"
        "studio" "p" 1 false "img_f").2.generatedImages.length = 1) := by
  decide

/-- C5 fails on the code: the balance UPDATE and the ledger INSERT of a debit
are two independent statements with no enclosing transaction, so an
execution that stops after the first statement (balance 100, cost 50) leaves
the balance already at 50 while the ledger is still empty: nothing is rolled
back. -/
theorem debit_partial_write_no_rollback :
    (applyStmts { initialUser with walletBalance := 100 }
        ((generateCommitStmts 100 "1920x1080" "lifestyle" "p" 1 true
          "img_5").take 1)).walletBalance = 50 ∧
    (applyStmts { initialUser with walletBalance := 100 }
        ((generateCommitStmts 100 "1920x1080" "lifestyle" "p" 1 true
          "img_5").take 1)).txs = [] := by
  decide

/-- C6 fails on the code: the sufficiency check uses a balance read taken
before the write, with no transaction around read, check and write. Under
the interleaving in which both requests (each costing 50 rupees against a
balance of 50) read before either writes, both pass the stale check and both
commit: both return success, two deduct rows of 50 are appended, and the
final balance is 0 while the signed ledger sum is -100. -/
theorem concurrent_debits_both_succeed :
    (runTwoGenerates { initialUser with walletBalance := 50 }
        "1920x1080" "lifestyle" "p" 1 true "img_a"
        "1920x1080" "studio" "q" 1 true "img_b").1
      = GenerateResult.success "https://r2-domain/generated/image.png" 2 0 ∧
    (runTwoGenerates { initialUser with walletBalance := 50 }
        "1920x1080" "lifestyle" "p" 1 true "img_a"
        "1920x1080" "studio" "q" 1 true "img_b").2.1
      = GenerateResult.success "https://r2-domain/generated/image.png" 2 0 ∧
    (runTwoGenerates { initialUser with walletBalance := 50 }
        "1920x1080" "lifestyle" "p" 1 true "img_a"
        "1920x1080" "studio" "q" 1 true "img_b").2.2.walletBalance = 0 ∧
    ledgerSum (runTwoGenerates { initialUser with walletBalance := 50 }
        "1920x1080" "lifestyle" "p" 1 true "img_a"
        "1920x1080" "studio" "q" 1 true "img_b").2.2.txs = -100 := by
  decide

/-- Every row of a ledger records as balance_after the signed running sum up
to and including itself. -/
def RowsConsistent (txs : List TxRow) : Prop :=
  ∀ i, i < txs.length →
    (txs.getD i defaultTxRow).balanceAfter = ledgerSum (txs.take (i + 1))

/-- The balance agrees with the signed ledger sum and every row snapshot is
the running sum at its own position. -/
def BalancedState (st : UserState) : Prop :=
  st.walletBalance = ledgerSum st.txs ∧ RowsConsistent st.txs

lemma ledgerSum_append (l1 l2 : List TxRow) :
    ledgerSum (l1 ++ l2) = ledgerSum l1 + ledgerSum l2 := by
  simp [ledgerSum]

lemma ledgerSum_singleton (r : TxRow) : ledgerSum [r] = signedAmount r := by
  simp [ledgerSum]

lemma rowsConsistent_append (txs : List TxRow) (r : TxRow)
    (h : RowsConsistent txs)
    (hr : r.balanceAfter = ledgerSum txs + signedAmount r) :
    RowsConsistent (txs ++ [r]) := by
  intro i hi
  rcases lt_or_ge i txs.length with hlt | hge
  · rw [List.getD_append _ _ _ _ hlt,
      List.take_append_of_le_length (by omega)]
    exact h i hlt
  · have hieq : i = txs.length := by
      simp only [List.length_append] at hi
      simp at hi
      omega
    subst hieq
    rw [List.getD_append_right _ _ _ _ (le_refl _)]
    simp only [Nat.sub_self, List.getD, List.getElem?_cons_zero,
      Option.getD_some]
    rw [List.take_of_length_le (by simp), ledgerSum_append, ledgerSum_singleton]
    exact hr

lemma balanced_applyOp (st : UserState) (op : LedgerOp)
    (h : BalancedState st) : BalancedState (applyOp st op) := by
  obtain ⟨hbal, hrows⟩ := h
  cases op with
  | webhook sig secret ev =>
    cases sig with
    | none => exact ⟨hbal, hrows⟩
    | some s =>
      by_cases hv : verifyStripeSignature s secret = false
      · simpa [applyOp, stripeWebhook, hv] using And.intro hbal hrows
      · by_cases hty : ev.eventType = "checkout.session.completed"
        · have hst : applyOp st (.webhook (some s) secret ev)
              = { st with
                    walletBalance := st.walletBalance + ev.amountTotal / 100,
                    txs := st.txs ++
                      [{ txType := "topup", amount := ev.amountTotal / 100,
                         creditsAdded := ev.amountTotal / 100 / 25,
                         balanceAfter := st.walletBalance + ev.amountTotal / 100,
                         paymentGatewayId := some ev.sessionId,
                         description := "Payment completed - "
                           ++ toString (ev.amountTotal / 100 / 25)
                           ++ " credits added" }] } := by
            simp [applyOp, stripeWebhook, hv, hty, applyStmts, applyStmt]
          rw [hst]
          constructor
          · simp only [ledgerSum_append, ledgerSum_singleton, hbal,
              signedAmount]
            rw [if_neg (by decide)]
          · apply rowsConsistent_append _ _ hrows
            simp only [signedAmount, ← hbal]
            rw [if_neg (by decide)]
        · simpa [applyOp, stripeWebhook, hv, hty] using And.intro hbal hrows
  | generate resolution generationType prompt n ok gid =>
    by_cases hn : n = 0
    · simpa [applyOp, postGenerate, generateFromRead, hn]
        using And.intro hbal hrows
    · by_cases hb : st.walletBalance < calculateCreditCost resolution n * 25
      · simpa [applyOp, postGenerate, generateFromRead, hn, hb]
          using And.intro hbal hrows
      · have hst : applyOp st (.generate resolution generationType prompt n ok gid)
            = { st with
                  walletBalance :=
                    st.walletBalance - calculateCreditCost resolution n * 25,
                  txs := st.txs ++
                    [{ txType := "deduct",
                       amount := calculateCreditCost resolution n * 25,
                       creditsAdded := 0,
                       balanceAfter :=
                         st.walletBalance - calculateCreditCost resolution n * 25,
                       paymentGatewayId := none,
                       description := "Image generation - " ++ resolution
                         ++ " - " ++ toString (calculateCreditCost resolution n)
                         ++ " credits" }],
                  creditUsage := st.creditUsage ++
                    [{ generationId := gid,
                       creditsConsumed := calculateCreditCost resolution n,
                       generationType := generationType,
                       resolution := resolution, prompt := prompt,
                       imageUrl := generateImageWithGoogle ok resolution,
                       costInRupees := calculateCreditCost resolution n * 25 }],
                  generatedImages := st.generatedImages ++
                    [{ id := gid, originalPrompt := prompt,
                       resolution := resolution,
                       generationType := generationType,
                       creditsUsed := calculateCreditCost resolution n,
                       imageUrl := generateImageWithGoogle ok resolution }] } := by
          simp [applyOp, postGenerate, generateFromRead, hn, hb,
            generateCommitStmts, applyStmts, applyStmt]
        rw [hst]
        constructor
        · simp only [ledgerSum_append, ledgerSum_singleton, hbal,
            signedAmount]
          rw [if_pos (by decide)]
          omega
        · apply rowsConsistent_append _ _ hrows
          simp only [signedAmount, ← hbal]
          rw [if_pos (by decide)]
          omega

lemma balanced_applyOps (ops : List LedgerOp) (st : UserState)
    (h : BalancedState st) : BalancedState (applyOps st ops) := by
  induction ops generalizing st with
  | nil => exact h
  | cons op rest ih => exact ih (applyOp st op) (balanced_applyOp st op h)

/-- C4: starting from a freshly created user, after any sequence of webhook
credits and generation debits, the wallet balance equals the signed sum
(topup and bonus positive, deduct negative) of all ledger rows in creation
order, and every ledger row carries as balance_after exactly the running
signed sum at its own position, that is, the balance immediately after its
own mutation. -/
theorem wallet_balance_equals_ledger_sum (ops : List LedgerOp) :
    (applyOps initialUser ops).walletBalance
      = ledgerSum (applyOps initialUser ops).txs ∧
    ∀ i, i < (applyOps initialUser ops).txs.length →
      ((applyOps initialUser ops).txs.getD i defaultTxRow).balanceAfter
        = ledgerSum ((applyOps initialUser ops).txs.take (i + 1)) :=
  balanced_applyOps ops initialUser
    ⟨rfl, fun i hi => absurd hi (by simp [initialUser])⟩

/-- Witness for C4: one topup of 1000 followed by one debit of 50; the
balance is the signed ledger sum and the first row snapshot matches. -/
theorem wallet_balance_equals_ledger_sum_witness :
    (applyOps initialUser
        [LedgerOp.webhook (some "t=1,v1=w") "whsec"
          { eventType := "checkout.session.completed", sessionId := "cs_w",
            amountTotal := 100000 },
         LedgerOp.generate "1920x1080" "studio" "p" 1 true "img_w4"]).walletBalance
      = ledgerSum (applyOps initialUser
        [LedgerOp.webhook (some "t=1,v1=w") "whsec"
          { eventType := "checkout.session.completed", sessionId := "cs_w",
            amountTotal := 100000 },
         LedgerOp.generate "1920x1080" "studio" "p" 1 true "img_w4"]).txs ∧
    ((applyOps initialUser
        [LedgerOp.webhook (some "t=1,v1=w") "whsec"
          { eventType := "checkout.session.completed", sessionId := "cs_w",
            amountTotal := 100000 },
         LedgerOp.generate "1920x1080" "studio" "p" 1 true "img_w4"]).txs.getD 0
        defaultTxRow).balanceAfter
      = ledgerSum ((applyOps initialUser
        [LedgerOp.webhook (some "t=1,v1=w") "whsec"
          { eventType := "checkout.session.completed", sessionId := "cs_w",
            amountTotal := 100000 },
         LedgerOp.generate "1920x1080" "studio" "p" 1 true "img_w4"]).txs.take 1) :=
  ⟨(wallet_balance_equals_ledger_sum _).1,
   (wallet_balance_equals_ledger_sum _).2 0 (by decide)⟩

/-- C7 as stated is false on the code: a valid checkout.session.completed
event with amount 1000 (amount_total 100000 paise) applied to a fresh user
does not produce two ledger rows with final balance 1005; the handler writes
no bonus row at all. -/
theorem webhook_no_bonus_row_counterexample :
    ¬ ((stripeWebhook initialUser (some "t=1,v1=s") "whsec"
          { eventType := "checkout.session.completed", sessionId := "cs_7",
            amountTotal := 100000 }).2.txs.length = 2 ∧
       (stripeWebhook initialUser (some "t=1,v1=s") "whsec"
          { eventType := "checkout.session.completed", sessionId := "cs_7",
            amountTotal := 100000 }).2.walletBalance = 0 + 1000 + 5) := by
  decide

/-- C7 amended: applying a valid checkout.session.completed event with
amount 1000 appends exactly one ledger row, a topup of 1000 with
credits_added 40 carrying the session id as gateway reference, and the final
balance equals the prior balance plus 1000; no bonus row is appended and no
bonus-equivalent is added to the balance. -/
theorem webhook_topup_1000_single_row (st : UserState) :
    stripeWebhook st (some "t=1,v1=s") "whsec"
        { eventType := "checkout.session.completed", sessionId := "cs_7",
          amountTotal := 100000 }
      = (WebhookResult.received,
         { st with
             walletBalance := st.walletBalance + 1000,
             txs := st.txs ++
               [{ txType := "topup", amount := 1000, creditsAdded := 40,
                  balanceAfter := st.walletBalance + 1000,
                  paymentGatewayId := some "cs_7",
                  description := "Payment completed - 40 credits added" }] }) := by
  rfl

end Productorrr
